import Mathlib

/-!
Verification development for the CodeFlow studio repository.

The definitions below are a shallow embedding of the TypeScript sources:
- the generation request orchestrator `handleGenerateDiagram` from
  src/app/page.tsx (the folder-upload revision with the retry loop,
  MAX_RETRIES = 2 and RETRY_DELAY_MS = 3000);
- the Genkit flow `generateMermaidDiagramFlow` from
  src/ai/flows/generate-mermaid-diagram.ts;
- the restyle pass and the render continuation of `MermaidViewer` from
  src/components/code-flow/mermaid-viewer.tsx.

JavaScript strings are modelled as Lean `String`; JavaScript string or
undefined values as `Option String`, with JavaScript truthiness of such a
value given by `truthy` (undefined and the empty string are falsy).
`String.includes` is modelled by `containsSubstr` and `toLowerCase` by
`jsToLowerCase` (character-wise lowercasing).
-/

/-- Model of the JavaScript `String.prototype.trim` call: drop whitespace
characters from both ends of the string. -/
def jsTrim (s : String) : String :=
  String.mk (((s.data.dropWhile Char.isWhitespace).reverse.dropWhile
    Char.isWhitespace).reverse)

/-- JavaScript truthiness of a string-or-absent value: absent and the empty
string are falsy, every other string is truthy. -/
def truthy : Option String → Bool
  | none => false
  | some s => !s.isEmpty

/-- Boolean test that the list `needle` occurs at the start of `hay`,
comparing elements with `BEq`. -/
def charsStartWith : List Char → List Char → Bool
  | _, [] => true
  | [], _ :: _ => false
  | a :: as, b :: bs => a == b && charsStartWith as bs

/-- Boolean test that the list `needle` occurs contiguously somewhere in
`hay`; this models `Array.prototype.includes` style containment on the
character lists of JavaScript strings. -/
def charsContain : List Char → List Char → Bool
  | [], needle => needle.isEmpty
  | a :: as, needle => charsStartWith (a :: as) needle || charsContain as needle

/-- Model of the JavaScript `String.prototype.includes` test. -/
def containsSubstr (s sub : String) : Bool :=
  charsContain s.data sub.data

/-- Model of the JavaScript `String.prototype.toLowerCase` call:
character-wise lowercasing of the string. -/
def jsToLowerCase (s : String) : String :=
  String.mk (s.data.map Char.toLower)

/-- Case-insensitive substring containment: both strings are lowercased
before the containment test. This is the notion of matching that the spec
describes for the retryable-error classification. -/
def containsCI (s sub : String) : Bool :=
  containsSubstr (jsToLowerCase s) (jsToLowerCase sub)

/-- Error-message classification of `handleGenerateDiagram`
(src/app/page.tsx): an error is retryable when the message contains
the substring 503, or its lowercasing contains overloaded or
try again later. -/
def isRetryable (msg : String) : Bool :=
  containsSubstr msg "503" || containsSubstr (jsToLowerCase msg) "overloaded"
    || containsSubstr (jsToLowerCase msg) "try again later"

/-- Retry budget of the orchestrator: maximum number of retries after the
initial call (so MAX_RETRIES = 2 means 3 total attempts). -/
def MAX_RETRIES : Nat := 2

/-- Fixed delay between retries, in milliseconds. -/
def RETRY_DELAY_MS : Nat := 3000

/-- An uploaded file entry: a path and its text content. -/
structure UploadedFile where
  path : String
  content : String
deriving Repr, DecidableEq

/-- Outcome of one call to `generateMermaidDiagramAction`: either the
promise resolves to an object with optional `error` and `mermaidDiagram`
string fields, or it rejects with an exception carrying a message. -/
inductive CallOutcome where
  | resolved (error : Option String) (mermaidDiagram : Option String)
  | rejected (message : String)
deriving Repr, DecidableEq

/-- Observable events of one orchestrator run: a service call, or a fixed
backoff delay of the given number of milliseconds. -/
inductive OrchEvent where
  | call
  | delay (ms : Nat)
deriving Repr, DecidableEq

/-- Result of the attempt loop of `handleGenerateDiagram`: the events it
performed in order, the final `operationSuccessful` flag, the diagram it
stored via `setMermaidSyntax` during the loop, and the message of the
final `lastError` (none when the last error was cleared). -/
structure LoopResult where
  events : List OrchEvent
  success : Bool
  diagram : Option String
  lastErrorMsg : Option String
deriving Repr, DecidableEq

/-- Message thrown when a call resolves without a usable diagram. -/
def noDiagramMsg : String :=
  "AI did not return a diagram. Try modifying your input or prompt."

/-- Fallback message used when a caught exception has an empty message. -/
def unknownErrorMsg : String := "An unknown error occurred."

/-- The attempt loop of `handleGenerateDiagram` (src/app/page.tsx lines
183 to 234). `calls i` is the outcome of the i-th call to the generation
action. Each iteration performs one call; on a retryable failure with
attempts remaining it waits the fixed delay and continues with `attempts`
incremented; otherwise it exits with the terminal outcome. A `throw`
inside the `try` block lands in the `catch` block, which re-evaluates the
same retryability condition on the same attempt counter; on the path that
throws `result.error` that condition is false again, so the loop breaks
with `lastError` carrying that message, which the exit below records
directly. -/
def runLoop (calls : Nat → CallOutcome) (idx attempts : Nat) : LoopResult :=
  match calls idx with
  | CallOutcome.resolved err diag =>
    if truthy err then
      let errorMessage := err.getD ""
      if h : isRetryable errorMessage ∧ attempts < MAX_RETRIES then
        let r := runLoop calls (idx + 1) (attempts + 1)
        ⟨OrchEvent.call :: OrchEvent.delay RETRY_DELAY_MS :: r.events,
          r.success, r.diagram, r.lastErrorMsg⟩
      else
        ⟨[OrchEvent.call], false, none, some errorMessage⟩
    else if truthy diag then
      ⟨[OrchEvent.call], true, diag, none⟩
    else
      -- throw Error(noDiagramMsg), handled by the catch block
      if h : isRetryable noDiagramMsg ∧ attempts < MAX_RETRIES then
        let r := runLoop calls (idx + 1) (attempts + 1)
        ⟨OrchEvent.call :: OrchEvent.delay RETRY_DELAY_MS :: r.events,
          r.success, r.diagram, r.lastErrorMsg⟩
      else
        ⟨[OrchEvent.call], false, none, some noDiagramMsg⟩
  | CallOutcome.rejected e =>
    -- catch block: const message = e.message || unknownErrorMsg
    let message := if e.isEmpty then unknownErrorMsg else e
    if h : isRetryable message ∧ attempts < MAX_RETRIES then
      let r := runLoop calls (idx + 1) (attempts + 1)
      ⟨OrchEvent.call :: OrchEvent.delay RETRY_DELAY_MS :: r.events,
        r.success, r.diagram, r.lastErrorMsg⟩
    else
      ⟨[OrchEvent.call], false, none, some e⟩
termination_by MAX_RETRIES + 1 - attempts
decreasing_by
  all_goals (obtain ⟨-, h2⟩ := h; omega)

/-- React state of the CodeFlow page that `handleGenerateDiagram` reads
and writes. -/
structure PageState where
  code : String
  uploadedFolderFiles : Option (List UploadedFile)
  mermaidSyntax : Option String
  error : Option String
  highlightedNodeText : Option String
  isLoading : Bool
deriving Repr, DecidableEq

/-- Input selection of `handleGenerateDiagram` (src/app/page.tsx lines
158 to 172): a non-empty uploaded folder wins, otherwise non-whitespace
editor code is wrapped as a single file, otherwise the submission is
rejected. -/
def selectInput (code : String) (uploadedFolderFiles : Option (List UploadedFile)) :
    Option (List UploadedFile) :=
  match uploadedFolderFiles with
  | some fs =>
    if 0 < fs.length then some fs
    else if (jsTrim code).isEmpty then none
    else some [⟨"input_code.txt", code⟩]
  | none =>
    if (jsTrim code).isEmpty then none
    else some [⟨"input_code.txt", code⟩]

/-- Fallback terminal error message when the final `lastError` has an
empty message. -/
def finalFallbackMsg : String :=
  "Failed to generate diagram after multiple attempts. Please try again later."

/-- Result of one invocation of `handleGenerateDiagram`: whether the
input was accepted (false means the early return with the Input Required
toast), the ordered call and delay events, and the final page state. -/
structure GenResult where
  inputAccepted : Bool
  events : List OrchEvent
  state : PageState
deriving Repr, DecidableEq

/-- The `handleGenerateDiagram` handler of src/app/page.tsx (lines 158 to
249). On accepted input it clears error, diagram and highlight, runs the
attempt loop, and surfaces the terminal outcome: the stored diagram on
success, or the final error message (with its empty-message fallback) on
failure. -/
def handleGenerateDiagram (st : PageState) (calls : Nat → CallOutcome) : GenResult :=
  match selectInput st.code st.uploadedFolderFiles with
  | none => ⟨false, [], st⟩
  | some _files =>
    let st1 : PageState :=
      { st with isLoading := true, error := none, mermaidSyntax := none,
                highlightedNodeText := none }
    let r := runLoop calls 0 0
    let st2 : PageState :=
      if r.success then { st1 with mermaidSyntax := r.diagram } else st1
    let st3 : PageState :=
      match r.success, r.lastErrorMsg with
      | false, some emsg =>
        let finalErrorMessage := if emsg.isEmpty then finalFallbackMsg else emsg
        { st2 with error := some finalErrorMessage, mermaidSyntax := none }
      | _, _ => st2
    ⟨true, r.events, { st3 with isLoading := false }⟩

theorem runLoop_retry_resolved (calls : Nat → CallOutcome) (idx attempts : Nat)
    (err : String) (d : Option String)
    (hc : calls idx = CallOutcome.resolved (some err) d) (he : err.isEmpty = false)
    (hr : isRetryable err = true) (ha : attempts < MAX_RETRIES) :
    runLoop calls idx attempts =
      ⟨OrchEvent.call :: OrchEvent.delay RETRY_DELAY_MS ::
          (runLoop calls (idx + 1) (attempts + 1)).events,
        (runLoop calls (idx + 1) (attempts + 1)).success,
        (runLoop calls (idx + 1) (attempts + 1)).diagram,
        (runLoop calls (idx + 1) (attempts + 1)).lastErrorMsg⟩ := by
  conv_lhs => rw [runLoop.eq_def]
  rw [hc]
  simp only [truthy, he, Bool.not_false, if_true, Option.getD_some]
  rw [dif_pos ⟨hr, ha⟩]

theorem runLoop_fail_resolved (calls : Nat → CallOutcome) (idx attempts : Nat)
    (err : String) (d : Option String)
    (hc : calls idx = CallOutcome.resolved (some err) d) (he : err.isEmpty = false)
    (hstop : isRetryable err = false ∨ ¬ attempts < MAX_RETRIES) :
    runLoop calls idx attempts = ⟨[OrchEvent.call], false, none, some err⟩ := by
  conv_lhs => rw [runLoop.eq_def]
  rw [hc]
  simp only [truthy, he, Bool.not_false, if_true, Option.getD_some]
  rw [dif_neg]
  rintro ⟨hr, ha⟩
  rcases hstop with h | h
  · simp [h] at hr
  · exact h ha

theorem runLoop_success_resolved (calls : Nat → CallOutcome) (idx attempts : Nat)
    (errOpt : Option String) (d : String)
    (hc : calls idx = CallOutcome.resolved errOpt (some d)) (he : truthy errOpt = false)
    (hd : d.isEmpty = false) :
    runLoop calls idx attempts = ⟨[OrchEvent.call], true, some d, none⟩ := by
  conv_lhs => rw [runLoop.eq_def]
  rw [hc]
  simp only [he, Bool.false_eq_true, if_false]
  simp only [truthy, hd, Bool.not_false, if_true]

theorem runLoop_nodiagram_resolved (calls : Nat → CallOutcome) (idx attempts : Nat)
    (errOpt dOpt : Option String)
    (hc : calls idx = CallOutcome.resolved errOpt dOpt) (he : truthy errOpt = false)
    (hd : truthy dOpt = false) :
    runLoop calls idx attempts = ⟨[OrchEvent.call], false, none, some noDiagramMsg⟩ := by
  conv_lhs => rw [runLoop.eq_def]
  rw [hc]
  simp only [he, hd, if_false, Bool.false_eq_true]
  rw [dif_neg]
  rintro ⟨hr, -⟩
  revert hr
  decide

/-- C1: with the default retry budget (MAX_RETRIES = 2 retries after the
initial call, so maxAttempts = 3), if every call returns an error
classified retryable, then exactly three service calls and exactly two
fixed delays occur, and the run ends Failed with the error set to the
message of the third call verbatim. -/
theorem retry_exhaustion_three_calls_two_delays
    (st : PageState) (calls : Nat → CallOutcome) (files : List UploadedFile)
    (e0 e1 e2 : String) (d0 d1 d2 : Option String)
    (hsel : selectInput st.code st.uploadedFolderFiles = some files)
    (h0 : calls 0 = CallOutcome.resolved (some e0) d0)
    (h0e : e0.isEmpty = false) (h0r : isRetryable e0 = true)
    (h1 : calls 1 = CallOutcome.resolved (some e1) d1)
    (h1e : e1.isEmpty = false) (h1r : isRetryable e1 = true)
    (h2 : calls 2 = CallOutcome.resolved (some e2) d2)
    (h2e : e2.isEmpty = false) (h2r : isRetryable e2 = true) :
    handleGenerateDiagram st calls =
      ⟨true,
        [OrchEvent.call, OrchEvent.delay RETRY_DELAY_MS, OrchEvent.call,
          OrchEvent.delay RETRY_DELAY_MS, OrchEvent.call],
        { st with isLoading := false, error := some e2, mermaidSyntax := none,
                  highlightedNodeText := none }⟩ := by
  have hrun : runLoop calls 0 0 =
      ⟨[OrchEvent.call, OrchEvent.delay RETRY_DELAY_MS, OrchEvent.call,
        OrchEvent.delay RETRY_DELAY_MS, OrchEvent.call], false, none, some e2⟩ := by
    rw [runLoop_retry_resolved calls 0 0 e0 d0 h0 h0e h0r (by decide),
        runLoop_retry_resolved calls 1 1 e1 d1 h1 h1e h1r (by decide),
        runLoop_fail_resolved calls 2 2 e2 d2 h2 h2e (Or.inr (by decide))]
  simp [handleGenerateDiagram, hsel, hrun, h2e]

/-- Witness for C1 at a concrete input: a page with code x and three
calls that all resolve to the retryable error 503 a. -/
theorem retry_exhaustion_three_calls_two_delays_witness :
    handleGenerateDiagram
        ⟨"x", none, some "old diagram", some "old error", some "old hl", false⟩
        (fun _ => CallOutcome.resolved (some "503 a") none) =
      ⟨true,
        [OrchEvent.call, OrchEvent.delay RETRY_DELAY_MS, OrchEvent.call,
          OrchEvent.delay RETRY_DELAY_MS, OrchEvent.call],
        ⟨"x", none, none, some "503 a", none, false⟩⟩ :=
  retry_exhaustion_three_calls_two_delays
    ⟨"x", none, some "old diagram", some "old error", some "old hl", false⟩
    (fun _ => CallOutcome.resolved (some "503 a") none)
    [⟨"input_code.txt", "x"⟩] "503 a" "503 a" "503 a" none none none
    (by decide) rfl (by decide) (by decide) rfl (by decide) (by decide)
    rfl (by decide) (by decide)

/-- C2: with maxAttempts = 3, if the first call fails retryably and the
second call returns a diagram, the run makes exactly two service calls
with exactly one delay in between, makes no third call, and ends
Succeeded with the diagram of the second call. -/
theorem second_call_success_one_delay
    (st : PageState) (calls : Nat → CallOutcome) (files : List UploadedFile)
    (e0 : String) (d0 e1 : Option String) (d : String)
    (hsel : selectInput st.code st.uploadedFolderFiles = some files)
    (h0 : calls 0 = CallOutcome.resolved (some e0) d0)
    (h0e : e0.isEmpty = false) (h0r : isRetryable e0 = true)
    (h1 : calls 1 = CallOutcome.resolved e1 (some d))
    (h1e : truthy e1 = false) (hd : d.isEmpty = false) :
    handleGenerateDiagram st calls =
      ⟨true, [OrchEvent.call, OrchEvent.delay RETRY_DELAY_MS, OrchEvent.call],
        { st with isLoading := false, error := none, mermaidSyntax := some d,
                  highlightedNodeText := none }⟩ := by
  have hrun : runLoop calls 0 0 =
      ⟨[OrchEvent.call, OrchEvent.delay RETRY_DELAY_MS, OrchEvent.call],
        true, some d, none⟩ := by
    rw [runLoop_retry_resolved calls 0 0 e0 d0 h0 h0e h0r (by decide),
        runLoop_success_resolved calls 1 1 e1 d h1 h1e hd]
  simp [handleGenerateDiagram, hsel, hrun]

/-- Witness for C2 at a concrete input: the first call is overloaded, the
second returns the diagram graph TD. -/
theorem second_call_success_one_delay_witness :
    handleGenerateDiagram ⟨"x", none, none, none, none, false⟩
        (fun i => if i = 0 then CallOutcome.resolved (some "model overloaded") none
                  else CallOutcome.resolved none (some "graph TD")) =
      ⟨true, [OrchEvent.call, OrchEvent.delay RETRY_DELAY_MS, OrchEvent.call],
        ⟨"x", none, some "graph TD", none, none, false⟩⟩ :=
  second_call_success_one_delay ⟨"x", none, none, none, none, false⟩
    (fun i => if i = 0 then CallOutcome.resolved (some "model overloaded") none
              else CallOutcome.resolved none (some "graph TD"))
    [⟨"input_code.txt", "x"⟩] "model overloaded" none none "graph TD"
    (by decide) rfl (by decide) (by decide) rfl rfl (by decide)

theorem charToLower_eq_of_toNat_lt (c d : Char) (hd : d.toNat < 65) :
    Char.toLower c = d ↔ c = d := by
  constructor
  · intro he
    by_cases h : c.toNat ≥ 65 ∧ c.toNat ≤ 90
    · exfalso
      simp only [Char.toLower] at he
      rw [if_pos h] at he
      obtain ⟨h1, h2⟩ := h
      generalize hg : c.toNat = n at h1 h2 he
      interval_cases n <;> (rw [← he] at hd; revert hd; decide)
    · simpa only [Char.toLower, if_neg h] using he
  · intro he
    subst he
    have h : ¬ (c.toNat ≥ 65 ∧ c.toNat ≤ 90) := by omega
    simp only [Char.toLower, if_neg h]

theorem beq_toLower_low (c d : Char) (hd : d.toNat < 65) :
    (Char.toLower c == d) = (c == d) := by
  apply Bool.eq_iff_iff.mpr
  simp only [beq_iff_eq]
  exact charToLower_eq_of_toNat_lt c d hd

theorem charsStartWith_map_toLower (l ds : List Char)
    (hds : ∀ d ∈ ds, d.toNat < 65) :
    charsStartWith (l.map Char.toLower) ds = charsStartWith l ds := by
  induction ds generalizing l with
  | nil => cases l <;> rfl
  | cons d ds ih =>
    cases l with
    | nil => rfl
    | cons a as =>
      simp only [List.map_cons, charsStartWith]
      rw [beq_toLower_low a d (hds d (by simp)),
        ih as (fun x hx => hds x (by simp [hx]))]

theorem charsContain_map_toLower (l ds : List Char)
    (hds : ∀ d ∈ ds, d.toNat < 65) :
    charsContain (l.map Char.toLower) ds = charsContain l ds := by
  induction l with
  | nil => rfl
  | cons a as ih =>
    have h1 : charsContain (List.map Char.toLower (a :: as)) ds =
        (charsStartWith (List.map Char.toLower (a :: as)) ds ||
          charsContain (List.map Char.toLower as) ds) := rfl
    have h2 : charsContain (a :: as) ds =
        (charsStartWith (a :: as) ds || charsContain as ds) := rfl
    rw [h1, h2, charsStartWith_map_toLower (a :: as) ds hds, ih]

theorem containsSubstr_toLower_503 (msg : String) :
    containsSubstr (jsToLowerCase msg) "503" = containsSubstr msg "503" := by
  unfold containsSubstr jsToLowerCase
  exact charsContain_map_toLower msg.data "503".data (by decide)

/-- C3: the orchestrator classifies a failing call message as retryable
exactly when it contains 503, overloaded, or try again later as a
case-insensitive substring; on a retryable classification with attempts
remaining, the next call happens only after exactly one fixed delay of
RETRY_DELAY_MS milliseconds; on a non-matching message the run ends
Failed immediately with zero delay, carrying the message verbatim. -/
theorem retryable_classification_and_fixed_delay :
    (∀ msg : String,
      isRetryable msg =
        (containsCI msg "503" || containsCI msg "overloaded" ||
          containsCI msg "try again later")) ∧
    (∀ (calls : Nat → CallOutcome) (idx attempts : Nat) (err : String)
        (d : Option String),
      calls idx = CallOutcome.resolved (some err) d → err.isEmpty = false →
      isRetryable err = true → attempts < MAX_RETRIES →
      runLoop calls idx attempts =
        ⟨OrchEvent.call :: OrchEvent.delay RETRY_DELAY_MS ::
            (runLoop calls (idx + 1) (attempts + 1)).events,
          (runLoop calls (idx + 1) (attempts + 1)).success,
          (runLoop calls (idx + 1) (attempts + 1)).diagram,
          (runLoop calls (idx + 1) (attempts + 1)).lastErrorMsg⟩) ∧
    (∀ (calls : Nat → CallOutcome) (idx attempts : Nat) (err : String)
        (d : Option String),
      calls idx = CallOutcome.resolved (some err) d → err.isEmpty = false →
      isRetryable err = false →
      runLoop calls idx attempts =
        ⟨[OrchEvent.call], false, none, some err⟩) ∧
    (∀ (st : PageState) (calls : Nat → CallOutcome) (files : List UploadedFile)
        (err : String) (d : Option String),
      selectInput st.code st.uploadedFolderFiles = some files →
      calls 0 = CallOutcome.resolved (some err) d → err.isEmpty = false →
      isRetryable err = false →
      handleGenerateDiagram st calls =
        ⟨true, [OrchEvent.call],
          { st with isLoading := false, error := some err, mermaidSyntax := none,
                    highlightedNodeText := none }⟩) := by
  refine ⟨?_, ?_, ?_, ?_⟩
  · intro msg
    unfold isRetryable containsCI
    have h1 : jsToLowerCase "503" = "503" := by decide
    have h2 : jsToLowerCase "overloaded" = "overloaded" := by decide
    have h3 : jsToLowerCase "try again later" = "try again later" := by decide
    rw [h1, h2, h3, containsSubstr_toLower_503]
  · intro calls idx attempts err d hc he hr ha
    exact runLoop_retry_resolved calls idx attempts err d hc he hr ha
  · intro calls idx attempts err d hc he hr
    exact runLoop_fail_resolved calls idx attempts err d hc he (Or.inl hr)
  · intro st calls files err d hsel hc he hr
    have hrun : runLoop calls 0 0 = ⟨[OrchEvent.call], false, none, some err⟩ :=
      runLoop_fail_resolved calls 0 0 err d hc he (Or.inl hr)
    simp [handleGenerateDiagram, hsel, hrun, he]

/-- Witness for C3 at a concrete input: the message boom matches no
retryable phrase, so the run fails after one call with zero delay. -/
theorem retryable_classification_and_fixed_delay_witness :
    handleGenerateDiagram ⟨"x", none, none, none, none, false⟩
        (fun _ => CallOutcome.resolved (some "boom") none) =
      ⟨true, [OrchEvent.call], ⟨"x", none, none, some "boom", none, false⟩⟩ :=
  retryable_classification_and_fixed_delay.2.2.2 ⟨"x", none, none, none, none, false⟩
    (fun _ => CallOutcome.resolved (some "boom") none)
    [⟨"input_code.txt", "x"⟩] "boom" none (by decide) rfl (by decide) (by decide)

/-- C7: with no uploaded folder files and empty or whitespace-only code,
the submission is rejected synchronously before the attempt loop: no
service call, no delay, and the page state is left untouched. -/
theorem empty_input_no_call
    (st : PageState) (calls : Nat → CallOutcome)
    (hfiles : st.uploadedFolderFiles = none ∨ st.uploadedFolderFiles = some [])
    (hcode : (jsTrim st.code).isEmpty = true) :
    handleGenerateDiagram st calls = ⟨false, [], st⟩ := by
  have hsel : selectInput st.code st.uploadedFolderFiles = none := by
    rcases hfiles with h | h <;> simp [selectInput, h, hcode]
  simp [handleGenerateDiagram, hsel]

/-- Witness for C7 at a concrete input: whitespace-only code, no folder,
and a failing service that is never consulted. -/
theorem empty_input_no_call_witness :
    handleGenerateDiagram ⟨"   ", none, some "d", some "e", some "h", false⟩
        (fun _ => CallOutcome.rejected "unreachable") =
      ⟨false, [], ⟨"   ", none, some "d", some "e", some "h", false⟩⟩ :=
  empty_input_no_call ⟨"   ", none, some "d", some "e", some "h", false⟩
    (fun _ => CallOutcome.rejected "unreachable") (Or.inl rfl) (by decide)

/-- C8: a call that completes without an error but carries no usable
diagram text (mermaidDiagram absent or empty) is a fatal, non-retryable
failure: no further call and no delay occur, and the run ends Failed
exactly as on the non-retryable error path. -/
theorem empty_diagram_is_fatal
    (st : PageState) (calls : Nat → CallOutcome) (files : List UploadedFile)
    (errOpt dOpt : Option String)
    (hsel : selectInput st.code st.uploadedFolderFiles = some files)
    (hc : calls 0 = CallOutcome.resolved errOpt dOpt)
    (he : truthy errOpt = false) (hd : truthy dOpt = false) :
    handleGenerateDiagram st calls =
      ⟨true, [OrchEvent.call],
        { st with isLoading := false, error := some noDiagramMsg,
                  mermaidSyntax := none, highlightedNodeText := none }⟩ := by
  have hrun := runLoop_nodiagram_resolved calls 0 0 errOpt dOpt hc he hd
  have hne : noDiagramMsg.isEmpty = false := by decide
  simp [handleGenerateDiagram, hsel, hrun, hne]

/-- Witness for C8 at a concrete input: the call resolves with an empty
diagram string and no error field. -/
theorem empty_diagram_is_fatal_witness :
    handleGenerateDiagram ⟨"x", none, none, none, none, false⟩
        (fun _ => CallOutcome.resolved none (some "")) =
      ⟨true, [OrchEvent.call],
        ⟨"x", none, none, some noDiagramMsg, none, false⟩⟩ :=
  empty_diagram_is_fatal ⟨"x", none, none, none, none, false⟩
    (fun _ => CallOutcome.resolved none (some "")) [⟨"input_code.txt", "x"⟩]
    none (some "") (by decide) rfl (by decide) (by decide)

theorem runLoop_rejected_retry (calls : Nat → CallOutcome) (idx attempts : Nat)
    (e : String) (hc : calls idx = CallOutcome.rejected e)
    (hr : isRetryable (if e.isEmpty then unknownErrorMsg else e) = true)
    (ha : attempts < MAX_RETRIES) :
    runLoop calls idx attempts =
      ⟨OrchEvent.call :: OrchEvent.delay RETRY_DELAY_MS ::
          (runLoop calls (idx + 1) (attempts + 1)).events,
        (runLoop calls (idx + 1) (attempts + 1)).success,
        (runLoop calls (idx + 1) (attempts + 1)).diagram,
        (runLoop calls (idx + 1) (attempts + 1)).lastErrorMsg⟩ := by
  conv_lhs => rw [runLoop.eq_def]
  rw [hc]
  dsimp only
  rw [dif_pos ⟨hr, ha⟩]

theorem runLoop_rejected_stop (calls : Nat → CallOutcome) (idx attempts : Nat)
    (e : String) (hc : calls idx = CallOutcome.rejected e)
    (hstop : isRetryable (if e.isEmpty then unknownErrorMsg else e) = false ∨
      ¬ attempts < MAX_RETRIES) :
    runLoop calls idx attempts = ⟨[OrchEvent.call], false, none, some e⟩ := by
  conv_lhs => rw [runLoop.eq_def]
  rw [hc]
  dsimp only
  rw [dif_neg]
  rintro ⟨hr, ha⟩
  rcases hstop with h | h
  · simp [h] at hr
  · exact h ha

theorem runLoop_shape (calls : Nat → CallOutcome) (idx attempts : Nat) :
    ((runLoop calls idx attempts).success = true ∧
      (runLoop calls idx attempts).lastErrorMsg = none ∧
      ∃ i e d, calls i = CallOutcome.resolved e (some d) ∧ truthy e = false ∧
        d.isEmpty = false ∧ (runLoop calls idx attempts).diagram = some d) ∨
    ((runLoop calls idx attempts).success = false ∧
      (runLoop calls idx attempts).diagram = none ∧
      ∃ m, (runLoop calls idx attempts).lastErrorMsg = some m) := by
  induction idx, attempts using runLoop.induct calls with
  | case1 idx attempts err diag hc he emsg h ih =>
    obtain ⟨errs, rfl⟩ : ∃ s, err = some s := by
      cases err
      · simp [truthy] at he
      · exact ⟨_, rfl⟩
    have hes : errs.isEmpty = false := by simpa [truthy] using he
    have hr : isRetryable errs = true := h.1
    rw [runLoop_retry_resolved calls idx attempts errs diag hc hes hr h.2]
    exact ih
  | case2 idx attempts err diag hc he emsg h =>
    obtain ⟨errs, rfl⟩ : ∃ s, err = some s := by
      cases err
      · simp [truthy] at he
      · exact ⟨_, rfl⟩
    have hes : errs.isEmpty = false := by simpa [truthy] using he
    have h2 : ¬ (isRetryable errs = true ∧ attempts < MAX_RETRIES) := h
    have hstop : isRetryable errs = false ∨ ¬ attempts < MAX_RETRIES := by
      rcases not_and_or.mp h2 with h1 | h1
      · exact Or.inl (by simpa using h1)
      · exact Or.inr h1
    right
    rw [runLoop_fail_resolved calls idx attempts errs diag hc hes hstop]
    exact ⟨rfl, rfl, _, rfl⟩
  | case3 idx attempts err diag hc he hd =>
    have he2 : truthy err = false := by simpa using he
    obtain ⟨ds, rfl⟩ : ∃ s, diag = some s := by
      cases diag
      · simp [truthy] at hd
      · exact ⟨_, rfl⟩
    have hds : ds.isEmpty = false := by
      have := hd
      simp [truthy] at this
      exact this
    left
    rw [runLoop_success_resolved calls idx attempts err ds hc he2 hds]
    exact ⟨rfl, rfl, idx, err, ds, hc, he2, hds, rfl⟩
  | case4 idx attempts err diag hc he hd h ih =>
    exact absurd h.1 (by decide)
  | case5 idx attempts err diag hc he hd h =>
    right
    rw [runLoop_nodiagram_resolved calls idx attempts err diag hc
      (by simpa using he) (by simpa using hd)]
    exact ⟨rfl, rfl, _, rfl⟩
  | case6 idx attempts e hc msg h ih =>
    have hr : isRetryable (if e.isEmpty then unknownErrorMsg else e) = true := h.1
    rw [runLoop_rejected_retry calls idx attempts e hc hr h.2]
    exact ih
  | case7 idx attempts e hc msg h =>
    have h2 : ¬ (isRetryable (if e.isEmpty then unknownErrorMsg else e) = true ∧
        attempts < MAX_RETRIES) := h
    have hstop : isRetryable (if e.isEmpty then unknownErrorMsg else e) = false ∨
        ¬ attempts < MAX_RETRIES := by
      rcases not_and_or.mp h2 with h1 | h1
      · exact Or.inl (by simpa using h1)
      · exact Or.inr h1
    right
    rw [runLoop_rejected_stop calls idx attempts e hc hstop]
    exact ⟨rfl, rfl, _, rfl⟩

/-- C10: every run of `handleGenerateDiagram` with accepted input ends in
exactly one of two mutually exclusive states: Succeeded, where
mermaidSyntax holds the diagram text newly returned by a call and error
is null, or Failed, where error holds the final message and mermaidSyntax
is null; and because mermaidSyntax, error and highlightedNodeText are
cleared before the first attempt, no previously displayed diagram or
highlight survives the submission, even a failing one. -/
theorem run_terminal_state_exclusive
    (st : PageState) (calls : Nat → CallOutcome) (files : List UploadedFile)
    (hsel : selectInput st.code st.uploadedFolderFiles = some files) :
    (handleGenerateDiagram st calls).inputAccepted = true ∧
    (handleGenerateDiagram st calls).state.highlightedNodeText = none ∧
    (handleGenerateDiagram st calls).state.isLoading = false ∧
    ((∃ d, (handleGenerateDiagram st calls).state.mermaidSyntax = some d ∧
        (handleGenerateDiagram st calls).state.error = none ∧
        ∃ i e, calls i = CallOutcome.resolved e (some d) ∧ truthy e = false) ∨
      ((handleGenerateDiagram st calls).state.mermaidSyntax = none ∧
        ∃ m, (handleGenerateDiagram st calls).state.error = some m)) := by
  rcases runLoop_shape calls 0 0 with
    ⟨hs, hl, i, e, d, hc, he, hd, hdg⟩ | ⟨hs, hd2, m, hm⟩
  · have hh : handleGenerateDiagram st calls =
        ⟨true, (runLoop calls 0 0).events,
          { st with isLoading := false, error := none, mermaidSyntax := some d,
                    highlightedNodeText := none }⟩ := by
      simp [handleGenerateDiagram, hsel, hs, hl, hdg]
    rw [hh]
    exact ⟨rfl, rfl, rfl, Or.inl ⟨d, rfl, rfl, i, e, hc, he⟩⟩
  · have hh : handleGenerateDiagram st calls =
        ⟨true, (runLoop calls 0 0).events,
          { st with isLoading := false,
                    error := some (if m.isEmpty then finalFallbackMsg else m),
                    mermaidSyntax := none, highlightedNodeText := none }⟩ := by
      simp [handleGenerateDiagram, hsel, hs, hm]
    rw [hh]
    exact ⟨rfl, rfl, rfl, Or.inr ⟨rfl, _, rfl⟩⟩

/-- Witness for C10 at a concrete input: a single successful call on a
page that previously displayed a diagram, an error and a highlight. -/
theorem run_terminal_state_exclusive_witness :
    (handleGenerateDiagram ⟨"x", none, some "old", some "olde", some "oldh", false⟩
        (fun _ => CallOutcome.resolved none (some "graph TD"))).inputAccepted = true ∧
    (handleGenerateDiagram ⟨"x", none, some "old", some "olde", some "oldh", false⟩
        (fun _ => CallOutcome.resolved none (some "graph TD"))).state.highlightedNodeText
        = none ∧
    (handleGenerateDiagram ⟨"x", none, some "old", some "olde", some "oldh", false⟩
        (fun _ => CallOutcome.resolved none (some "graph TD"))).state.isLoading = false ∧
    ((∃ d, (handleGenerateDiagram ⟨"x", none, some "old", some "olde", some "oldh", false⟩
          (fun _ => CallOutcome.resolved none (some "graph TD"))).state.mermaidSyntax
            = some d ∧
        (handleGenerateDiagram ⟨"x", none, some "old", some "olde", some "oldh", false⟩
          (fun _ => CallOutcome.resolved none (some "graph TD"))).state.error = none ∧
        ∃ i e, (fun _ : Nat => CallOutcome.resolved none (some "graph TD")) i
            = CallOutcome.resolved e (some d) ∧ truthy e = false) ∨
      ((handleGenerateDiagram ⟨"x", none, some "old", some "olde", some "oldh", false⟩
          (fun _ => CallOutcome.resolved none (some "graph TD"))).state.mermaidSyntax
            = none ∧
        ∃ m, (handleGenerateDiagram ⟨"x", none, some "old", some "olde", some "oldh", false⟩
          (fun _ => CallOutcome.resolved none (some "graph TD"))).state.error = some m)) :=
  run_terminal_state_exclusive ⟨"x", none, some "old", some "olde", some "oldh", false⟩
    (fun _ => CallOutcome.resolved none (some "graph TD"))
    [⟨"input_code.txt", "x"⟩] (by decide)

/-- The diagram-type keywords of the validation regex in
`generateMermaidDiagramFlow` (src/ai/flows/generate-mermaid-diagram.ts
line 103), in source order. -/
def mermaidTypeKeywords : List String :=
  ["graph", "flowchart", "sequenceDiagram", "classDiagram", "stateDiagram",
    "erDiagram", "gantt", "pie", "journey", "requirementDiagram", "C4Context",
    "mindmap"]

/-- Case-insensitive test that the keyword `k` occurs at the start of the
string `s`. -/
def startsWithKeywordCI (s k : String) : Bool :=
  charsStartWith (s.data.map Char.toLower) (k.data.map Char.toLower)

/-- Model of the anchored case-insensitive regex of the flow: after
trimming, the diagram text must begin with one of the recognized
diagram-type keywords. -/
def matchesMermaidType (d : String) : Bool :=
  mermaidTypeKeywords.any (fun k => startsWithKeywordCI (jsTrim d) k)

/-- Model of substring(0, n) on a JavaScript string. -/
def jsSubstring (s : String) (n : Nat) : String :=
  String.mk (s.data.take n)

/-- Input-validation error of the flow. -/
def noFilesMsg : String := "No files provided for diagram generation."

/-- Error thrown when the prompt output is null or its diagram empty. -/
def emptyOutputMsg : String :=
  "AI failed to generate a Mermaid diagram. The output was empty or invalid."

/-- Error thrown when the diagram does not start with a recognized type;
it embeds the first 100 characters of the offending output. -/
def invalidStartMsg (d : String) : String :=
  "Generated diagram does not start with a valid Mermaid graph type (e.g., graph TD, flowchart LR). The AI returned: "
    ++ jsSubstring d 100

/-- The Genkit flow of src/ai/flows/generate-mermaid-diagram.ts (lines 87
to 108). `promptOutput` models the object returned by the prompt call:
none when `output` is null, otherwise its mermaidDiagram string. A thrown
error is modelled as `Except.error` with the thrown message. -/
def generateMermaidDiagramFlow (files : List UploadedFile)
    (promptOutput : Option String) : Except String String :=
  if files.isEmpty then Except.error noFilesMsg
  else
    match promptOutput with
    | none => Except.error emptyOutputMsg
    | some d =>
      if d.isEmpty then Except.error emptyOutputMsg
      else if matchesMermaidType d then Except.ok d
      else Except.error (invalidStartMsg d)

/-- C9: the flow returns a generated diagram only when, after trimming,
the diagram text begins case-insensitively with one of the recognized
diagram-type keywords, and for every output not matching this pattern it
throws an error instead of returning. -/
theorem flow_validates_diagram_type :
    (∀ (files : List UploadedFile) (o : Option String) (d : String),
      generateMermaidDiagramFlow files o = Except.ok d →
      matchesMermaidType d = true) ∧
    (∀ (files : List UploadedFile) (d : String),
      files.isEmpty = false → d.isEmpty = false → matchesMermaidType d = false →
      generateMermaidDiagramFlow files (some d) =
        Except.error (invalidStartMsg d)) := by
  constructor
  · intro files o d h
    by_cases hf : files.isEmpty
    · simp [generateMermaidDiagramFlow, hf] at h
    · cases o with
      | none =>
        simp [generateMermaidDiagramFlow, hf] at h
      | some x =>
        by_cases hx : x.isEmpty
        · simp [generateMermaidDiagramFlow, hf, hx] at h
        · by_cases hm : matchesMermaidType x
          · simp only [generateMermaidDiagramFlow, hf, hx, hm] at h
            simp only [Bool.false_eq_true, if_false, if_true] at h
            cases h
            exact hm
          · simp [generateMermaidDiagramFlow, hf, hx, hm] at h
  · intro files d hf hd hm
    simp [generateMermaidDiagramFlow, hf, hd, hm]

/-- Witness for C9 at a concrete input: the output hello is rejected
because it starts with no recognized keyword. -/
theorem flow_validates_diagram_type_witness :
    generateMermaidDiagramFlow [⟨"a.ts", "x"⟩] (some "hello") =
      Except.error (invalidStartMsg "hello") :=
  flow_validates_diagram_type.2 [⟨"a.ts", "x"⟩] "hello"
    (by decide) (by decide) (by decide)

/-- Inline style of the main shape of a rendered node: fill, stroke and
stroke width; the empty string means the inline style is unset so the
default theme styling applies. -/
structure NodeStyle where
  fill : String
  stroke : String
  strokeWidth : String
deriving Repr, DecidableEq

/-- A rendered visual element (a g.node group of MermaidViewer): whether
a main shape and a label sub-element were found, the textContent of the
label (none when the DOM reports null), the inline style of the shape and
the inline fill of each text sub-element. -/
structure VisualElement where
  hasShape : Bool
  hasTextEl : Bool
  textContent : Option String
  style : NodeStyle
  textFills : List String
deriving Repr, DecidableEq

/-- Unset inline style: the element falls back to default styling. -/
def resetNodeStyle : NodeStyle := ⟨"", "", ""⟩

/-- Emphasis style applied to a highlighted element: accent fill, primary
stroke and a 3px stroke width. -/
def emphasisNodeStyle (accent primary : String) : NodeStyle :=
  ⟨"hsl(" ++ accent ++ ")", "hsl(" ++ primary ++ ")", "3px"⟩

/-- One element of the restyle pass of MermaidViewer (mermaid-viewer.tsx
lines 226 to 252): when the element has a shape and a label, the trimmed
label text is compared by exact string equality to the highlighted
identity; the inline styles are reset first and emphasis is applied only
on a match; an element without shape or label is untouched. -/
def restyleElement (accent primary accentFg : String)
    (highlightedNodeText : Option String) (el : VisualElement) : VisualElement :=
  if el.hasShape && el.hasTextEl then
    let nodeTextContent : Option String := el.textContent.map jsTrim
    let isHighlighted : Bool :=
      match nodeTextContent with
      | some t => !t.isEmpty && (some t == highlightedNodeText)
      | none => false
    if isHighlighted then
      { el with style := emphasisNodeStyle accent primary,
                textFills := el.textFills.map (fun _ => "hsl(" ++ accentFg ++ ")") }
    else
      { el with style := resetNodeStyle,
                textFills := el.textFills.map (fun _ => "") }
  else el

/-- The restyle pass over every rendered node of the current graphic. -/
def applyHighlightPass (accent primary accentFg : String)
    (highlighted : Option String) (els : List VisualElement) :
    List VisualElement :=
  els.map (restyleElement accent primary accentFg highlighted)

/-- C5: on every restyle pass, every element with a shape and a label is
explicitly restyled: an element whose trimmed label equals the current
highlighted identity by exact string equality receives the emphasis fill,
stroke and 3px stroke width, and every non-matching element is reset to
default styling regardless of its previous inline style; with elements
labeled a, b, b and selection b, both b elements are emphasized while a
is default, and no styling from a previously selected identity persists. -/
theorem restyle_pass_emphasis_and_reset
    (accent primary accentFg : String) (highlighted : Option String) :
    (∀ el : VisualElement, el.hasShape = true → el.hasTextEl = true →
      ∀ txt, el.textContent = some txt → (jsTrim txt).isEmpty = false →
      highlighted = some (jsTrim txt) →
      restyleElement accent primary accentFg highlighted el =
        { el with style := emphasisNodeStyle accent primary,
                  textFills := el.textFills.map
                    (fun _ => "hsl(" ++ accentFg ++ ")") }) ∧
    (∀ el : VisualElement, el.hasShape = true → el.hasTextEl = true →
      ∀ txt, el.textContent = some txt →
      ((jsTrim txt).isEmpty = true ∨ highlighted ≠ some (jsTrim txt)) →
      restyleElement accent primary accentFg highlighted el =
        { el with style := resetNodeStyle,
                  textFills := el.textFills.map (fun _ => "") }) ∧
    (∀ s1 s2 s3 : NodeStyle, ∀ f1 f2 f3 : String,
      applyHighlightPass accent primary accentFg (some "b")
        [⟨true, true, some "a", s1, [f1]⟩, ⟨true, true, some "b", s2, [f2]⟩,
          ⟨true, true, some "b", s3, [f3]⟩] =
        [⟨true, true, some "a", resetNodeStyle, [""]⟩,
          ⟨true, true, some "b", emphasisNodeStyle accent primary,
            ["hsl(" ++ accentFg ++ ")"]⟩,
          ⟨true, true, some "b", emphasisNodeStyle accent primary,
            ["hsl(" ++ accentFg ++ ")"]⟩]) := by
  refine ⟨?_, ?_, ?_⟩
  · intro el h1 h2 txt h3 h4 h5
    simp [restyleElement, h1, h2, h3, h4, h5]
  · intro el h1 h2 txt h3 hor
    rcases hor with h | h
    · simp [restyleElement, h1, h2, h3, h]
    · have hb : (some (jsTrim txt) == highlighted) = false :=
        beq_eq_false_iff_ne.mpr (Ne.symm h)
      simp [restyleElement, h1, h2, h3, hb]
  · intro s1 s2 s3 f1 f2 f3
    have ha : jsTrim "a" = "a" := by decide
    have hbtrim : jsTrim "b" = "b" := by decide
    have hae : "a".isEmpty = false := by decide
    have hbe : "b".isEmpty = false := by decide
    have hab : ((some "a" : Option String) == some "b") = false := by decide
    have hbb : ((some "b" : Option String) == some "b") = true := by decide
    simp [applyHighlightPass, restyleElement, ha, hbtrim, hae, hbe, hab, hbb]

/-- Witness for C5 at a concrete input: the a, b, b scenario with
arbitrary stale styles from a previous pass. -/
theorem restyle_pass_emphasis_and_reset_witness :
    applyHighlightPass "A" "P" "F" (some "b")
      [⟨true, true, some "a", ⟨"x", "y", "z"⟩, ["t1"]⟩,
        ⟨true, true, some "b", ⟨"u", "v", "w"⟩, ["t2"]⟩,
        ⟨true, true, some "b", ⟨"q", "r", "s"⟩, ["t3"]⟩] =
      [⟨true, true, some "a", resetNodeStyle, [""]⟩,
        ⟨true, true, some "b", emphasisNodeStyle "A" "P", ["hsl(" ++ "F" ++ ")"]⟩,
        ⟨true, true, some "b", emphasisNodeStyle "A" "P", ["hsl(" ++ "F" ++ ")"]⟩] :=
  (restyle_pass_emphasis_and_reset "A" "P" "F" (some "b")).2.2
    ⟨"x", "y", "z"⟩ ⟨"u", "v", "w"⟩ ⟨"q", "r", "s"⟩ "t1" "t2" "t3"

/-- DOM and React state written by the render effect of MermaidViewer. -/
structure ViewerState where
  containerHTML : String
  svgHandle : Option String
  internalError : Option String
  isDiagramLoaded : Bool
deriving Repr, DecidableEq

/-- Outcome of the asynchronous mermaid.render call. -/
inductive RenderOutcome where
  | ok (svg : String)
  | err (message : String)
deriving Repr, DecidableEq

/-- Placeholder markup written into the container on a rendering error. -/
def renderErrorHTML : String :=
  "<p class=\"text-destructive-foreground\">Error rendering diagram. Check console.</p>"

/-- Continuation of `renderFn` after the `await mermaid.render` call
(mermaid-viewer.tsx lines 138 to 187): on success it returns immediately
when the liveness flag is cleared or the container is gone, and otherwise
writes the graphic markup, the SVG handle and the loaded flag; on a
rendering error the catch block records the internal error, clears the
handle and the loaded flag and replaces the container content, all of it
only when the liveness flag is still set. -/
def renderContinuation (isMounted containerPresent : Bool)
    (outcome : RenderOutcome) (st : ViewerState) : ViewerState :=
  match outcome with
  | RenderOutcome.ok svg =>
    if !isMounted || !containerPresent then st
    else { st with containerHTML := svg, svgHandle := some svg,
                   isDiagramLoaded := true }
  | RenderOutcome.err m =>
    if isMounted then
      { st with
        internalError :=
          some ("MermaidLib Error: " ++
            (if m.isEmpty then "Unknown Mermaid rendering error" else m)),
        svgHandle := none, isDiagramLoaded := false,
        containerHTML := if containerPresent then renderErrorHTML
                         else st.containerHTML }
    else st

/-- C6: a render invocation whose liveness flag isMounted has been
cleared by the effect cleanup (because a newer render generation started
or the view tore down) never mutates shared state when its asynchronous
render call completes: it writes neither the graphic container, nor the
stored SVG element handle, nor the internal error, nor the diagram-loaded
flag. -/
theorem stale_render_never_mutates
    (containerPresent : Bool) (outcome : RenderOutcome) (st : ViewerState) :
    renderContinuation false containerPresent outcome st = st := by
  cases outcome <;> simp [renderContinuation]

/-- Current content and read-only flag of the code panel. -/
structure CodePanel where
  content : String
  readOnly : Bool
deriving Repr, DecidableEq

/-- Modelled from the spec: the page-level handler that redirects the
code panel when a highlighted identity matches an uploaded file path is
not present in the available source revisions (only the code editor that
displays a selected file read-only is), so it is modelled from section
4.3 of the spec: if the current identity exactly matches the path of one
entry in the uploaded file collection, the code panel content is replaced
with the content of that entry and marked read-only; if no match, the
code panel is left untouched. -/
def applyCodePanelRedirect (files : List UploadedFile) (identity : String)
    (panel : CodePanel) : CodePanel :=
  match files.find? (fun f => f.path == identity) with
  | some f => ⟨f.content, true⟩
  | none => panel

/-- C4: when the highlighted identity exactly equals the path of an entry
of the uploaded file collection, the code panel content is replaced with
the content of the matching entry and marked read-only; when no entry
matches, the code panel is left untouched. -/
theorem code_panel_redirect_spec (files : List UploadedFile)
    (identity : String) (panel : CodePanel) :
    ((∃ f ∈ files, f.path = identity) →
      (applyCodePanelRedirect files identity panel).readOnly = true ∧
      ∃ f ∈ files, f.path = identity ∧
        (applyCodePanelRedirect files identity panel).content = f.content) ∧
    ((∀ f ∈ files, f.path ≠ identity) →
      applyCodePanelRedirect files identity panel = panel) := by
  constructor
  · rintro ⟨f, hf, hp⟩
    have hsome : (files.find? (fun g => g.path == identity)).isSome := by
      rw [List.find?_isSome]
      exact ⟨f, hf, by simp [hp]⟩
    obtain ⟨g, hg⟩ := Option.isSome_iff_exists.mp hsome
    have hgm := List.mem_of_find?_eq_some hg
    have hgp : g.path = identity := by
      have := List.find?_some hg
      simpa using this
    unfold applyCodePanelRedirect
    rw [hg]
    exact ⟨rfl, g, hgm, hgp, rfl⟩
  · intro h
    have hnone : files.find? (fun g => g.path == identity) = none := by
      rw [List.find?_eq_none]
      intro g hgm
      simp [h g hgm]
    unfold applyCodePanelRedirect
    rw [hnone]

/-- Witness for C4 at a concrete input: the identity src/app.ts matches
the single uploaded file, so the panel shows its content read-only. -/
theorem code_panel_redirect_spec_witness :
    (applyCodePanelRedirect [⟨"src/app.ts", "content A"⟩] "src/app.ts"
        ⟨"old", false⟩).readOnly = true ∧
    ∃ f ∈ [(⟨"src/app.ts", "content A"⟩ : UploadedFile)],
      f.path = "src/app.ts" ∧
      (applyCodePanelRedirect [⟨"src/app.ts", "content A"⟩] "src/app.ts"
        ⟨"old", false⟩).content = f.content :=
  (code_panel_redirect_spec [⟨"src/app.ts", "content A"⟩] "src/app.ts"
    ⟨"old", false⟩).1 ⟨⟨"src/app.ts", "content A"⟩, by decide, rfl⟩
